import Mathlib

/-!
Shallow embedding of `src/tradeLogger.py` (a single-file trading journal)
and proofs about its P&L calculator, ledger store and settings handling.

Numbers are modelled as exact rationals (`ℚ`); Python strings as `String`.
-/

set_option linter.unusedVariables false

namespace TradeLogger

/-- Python `str.lower()` restricted to ASCII, which is all the program
compares (`"long"`, `"short"`). -/
def pyLower (s : String) : String :=
  String.mk (s.data.map Char.toLower)

/-- Python `str.upper()` restricted to ASCII, used on futures instrument
symbols. -/
def pyUpper (s : String) : String :=
  String.mk (s.data.map Char.toUpper)

/-- Numeric value of a list of decimal digit characters. -/
def natOfDigits (l : List Char) : ℕ :=
  l.foldl (fun n c => 10 * n + (c.toNat - 48)) 0

/-- Split an unsigned decimal body into integer digits and fraction digits:
digits, optionally followed by `.` and further digits, with at least one
digit overall.  `none` on any other shape. -/
def splitNumber (body : List Char) : Option (List Char × List Char) :=
  match body.span Char.isDigit with
  | (ip, []) => if ip.isEmpty then none else some (ip, [])
  | (ip, '.' :: fp) =>
      if fp.all Char.isDigit && !(ip.isEmpty && fp.isEmpty) then
        some (ip, fp)
      else none
  | _ => none

/-- Sign and digit groups of a decimal literal: an optional leading
`-` or `+`, then the unsigned body. -/
def parseParts (s : String) : Option (Bool × List Char × List Char) :=
  match s.data with
  | '-' :: r => (splitNumber r).map (fun p => (true, p))
  | '+' :: r => (splitNumber r).map (fun p => (false, p))
  | r => (splitNumber r).map (fun p => (false, p))

/-- Modelled from Python's builtin `float(...)` restricted to plain decimal
literals: optional sign, integer digits, optional `.` and fraction digits
(at least one digit overall).  `none` is the case where `float` raises
`ValueError` ("could not convert string to float"), i.e. a non-numeric
string. -/
def pyFloat? (s : String) : Option ℚ :=
  (parseParts s).map (fun p =>
    (if p.1 then (-1 : ℚ) else 1) *
      ((natOfDigits p.2.1 : ℚ) + (natOfDigits p.2.2 : ℚ) / 10 ^ p.2.2.length))

/-- Function `calculate_pnl` (lines 44–51): net P&L for long/short positions.
In the source `multiplier` has default value `1.0`; call sites that omit it
pass `1` here. -/
def calculate_pnl (entry exit size : ℚ) (direction : String)
    (commission : ℚ) (multiplier : ℚ) : ℚ :=
  let gross :=
    if pyLower direction = "long" then
      (exit - entry) * size * multiplier
    else
      (entry - exit) * size * multiplier
  gross - commission * size

/-- The global `settings` dict (lines 36–41). -/
structure Settings where
  commission_per_contract : ℚ
  text_size : ℕ
  dark_mode : Bool
  screenshot_folder : String
deriving DecidableEq, Repr

/-- Initial value of the `settings` dict. -/
def settings : Settings :=
  { commission_per_contract := 35 / 100
    text_size := 12
    dark_mode := false
    screenshot_folder := "" }

/-- Handler `save_settings` (lines 249–254): parse the commission entry; on success
overwrite `commission_per_contract` and report success, on `ValueError`
leave the dict untouched and report an error. Returns the new settings and
the messagebox text. -/
def save_settings (commission_entry : String) (s : Settings) :
    Settings × String :=
  match pyFloat? commission_entry with
  | some v =>
      ({ s with commission_per_contract := v }, "Settings updated successfully.")
  | none => (s, "Invalid commission value.")

/-- The futures multiplier table of `calculate_profit` (line 212). -/
def futures_multipliers : List (String × ℚ) :=
  [("NQ1", 20), ("ES1", 50), ("PL1", 50), ("CL1", 1000), ("GC1", 100), ("PA1", 100)]

/-- Lookup `multipliers.get(instrument, 1)` (line 213): table lookup with default 1.
The argument is the already-uppercased symbol, as at line 206. -/
def futuresMultiplier (instrument : String) : ℚ :=
  (futures_multipliers.lookup instrument).getD 1

/-- Text placed in `result_label` by `calculate_profit`:
either `"Net P&L: {pnl:.2f} | Commission: {commission}"` on success,
or `"Error: {e}"` when the `except` branch catches an exception. -/
inductive LabelText
  | netPnl (pnl commission : ℚ)
  | error (msg : String)
deriving DecidableEq, Repr

/-- The entry widgets of the Profit Calculator tab (`self.calc_entries`),
each branch reads a subset of these field strings. -/
structure CalcInput where
  currency_pair : String
  instrument : String
  direction : String
  position_size : String
  trade_size_lots : String
  contracts : String
  entry_price : String
  exit_price : String
deriving DecidableEq, Repr

/-- The Python `ValueError` message raised by `float(...)` on a
non-numeric string. -/
def floatError : String := "could not convert string to float"

/-- Method `calculate_profit` (lines 187–220).  Dispatch on the instrument-type
combobox: `"Stocks"`, `"Forex"`, anything else is the Futures branch.  The
whole body runs inside `try/except`, so a `ValueError` from `float(...)`
becomes an `"Error: ..."` label rather than propagating. -/
def calculate_profit (choice : String) (inp : CalcInput) (st : Settings) :
    LabelText :=
  let commission := st.commission_per_contract
  if choice = "Stocks" then
    match pyFloat? inp.position_size, pyFloat? inp.entry_price,
        pyFloat? inp.exit_price with
    | some size, some entry, some exit =>
        .netPnl (calculate_pnl entry exit size "long" commission 1) commission
    | _, _, _ => .error floatError
  else if choice = "Forex" then
    match pyFloat? inp.trade_size_lots, pyFloat? inp.entry_price,
        pyFloat? inp.exit_price with
    | some lots, some entry, some exit =>
        .netPnl
          (calculate_pnl entry exit (lots * 100000) inp.direction commission
            (1 / 10000)) commission
    | _, _, _ => .error floatError
  else
    match pyFloat? inp.contracts, pyFloat? inp.entry_price,
        pyFloat? inp.exit_price with
    | some size, some entry, some exit =>
        .netPnl
          (calculate_pnl entry exit size inp.direction commission
            (futuresMultiplier (pyUpper inp.instrument))) commission
    | _, _, _ => .error floatError

/-- A row of the `trades` table (lines 10–32).  `account_size` and
`stop_loss` are inserted as the raw entry strings (never parsed by
`save_trade`), so they are kept as `String` here; sqlite's dynamic typing
stores them as given. -/
structure Trade where
  id : ℕ
  date : String
  time : String
  instrument : String
  session : String
  account_size : String
  setup_name : String
  entry_price : ℚ
  exit_price : ℚ
  stop_loss : String
  position_size : ℚ
  direction : String
  pnl_net : ℚ
  commission : ℚ
  context : String
  bias : String
  duration : String
  mental_state_pre : String
  mental_state_during : String
  execution_quality : String
  distractions : String
deriving DecidableEq, Repr

/-- The 18 entry widgets of the Trade Tracker tab (`self.trade_entries`),
read into `data` at the top of `save_trade` (line 90). -/
structure TradeInput where
  date : String
  time : String
  instrument : String
  session : String
  account_size : String
  setup_name : String
  entry_price : String
  exit_price : String
  stop_loss : String
  position_size : String
  direction : String
  context : String
  bias : String
  duration : String
  mental_state_pre : String
  mental_state_during : String
  execution_quality : String
  distractions : String
deriving DecidableEq, Repr

/-- Program state: the global `settings` dict plus the sqlite `trades`
table, kept in insertion order (sqlite rowid order). -/
structure AppState where
  settings : Settings
  trades : List Trade
deriving DecidableEq, Repr

/-- Rowid sqlite assigns to a fresh `INSERT` on an
`INTEGER PRIMARY KEY` table: one more than the largest existing id
(1 for an empty table). -/
def newId (trades : List Trade) : ℕ :=
  (trades.foldr (fun t m => max t.id m) 0) + 1

/-- The row `save_trade` inserts (lines 98–107), given the already-parsed
Entry Price, Exit Price and Position Size: commission is the *current*
global rate, net P&L comes from `calculate_pnl` with its default
multiplier `1.0`, and the remaining columns are the raw entry strings. -/
def savedRow (data : TradeInput) (s : AppState) (entry exit size : ℚ) :
    Trade :=
  { id := newId s.trades
    date := data.date
    time := data.time
    instrument := data.instrument
    session := data.session
    account_size := data.account_size
    setup_name := data.setup_name
    entry_price := entry
    exit_price := exit
    stop_loss := data.stop_loss
    position_size := size
    direction := data.direction
    pnl_net := calculate_pnl entry exit size data.direction
      s.settings.commission_per_contract 1
    commission := s.settings.commission_per_contract
    context := data.context
    bias := data.bias
    duration := data.duration
    mental_state_pre := data.mental_state_pre
    mental_state_during := data.mental_state_during
    execution_quality := data.execution_quality
    distractions := data.distractions }

/-- Handler `save_trade` (lines 89–109): parse Entry Price, Exit Price and Position
Size with `float` (a `ValueError` aborts the handler with the table
untouched), snapshot the current commission, compute net P&L via
`calculate_pnl` with its default multiplier, and insert the row. -/
def save_trade (data : TradeInput) (s : AppState) : Except String AppState :=
  match pyFloat? data.entry_price with
  | none => .error floatError
  | some entry =>
  match pyFloat? data.exit_price with
  | none => .error floatError
  | some exit =>
  match pyFloat? data.position_size with
  | none => .error floatError
  | some size =>
    .ok { s with trades := s.trades ++ [savedRow data s entry exit size] }

/-- A row of the history view:
`SELECT id, date, instrument, pnl_net, commission` (line 126). -/
structure Summary where
  id : ℕ
  date : String
  instrument : String
  pnl_net : ℚ
  commission : ℚ
deriving DecidableEq, Repr

/-- Projection of a stored trade to its history-view columns. -/
def toSummary (t : Trade) : Summary :=
  { id := t.id
    date := t.date
    instrument := t.instrument
    pnl_net := t.pnl_net
    commission := t.commission }

/-- Insert into a list kept in descending-id order. -/
def insertByIdDesc (r : Summary) : List Summary → List Summary
  | [] => [r]
  | y :: ys =>
      if r.id ≥ y.id then r :: y :: ys else y :: insertByIdDesc r ys

/-- Clause `ORDER BY id DESC` (line 126): sort the selected rows by id,
newest first. -/
def sortByIdDesc : List Summary → List Summary
  | [] => []
  | r :: rs => insertByIdDesc r (sortByIdDesc rs)

/-- Handler `load_history` (lines 123–128): fresh query returning the summary
of every stored trade, ordered by id descending. -/
def load_history (s : AppState) : List Summary :=
  sortByIdDesc (s.trades.map toSummary)

/-- Handler `delete_trade` (lines 130–137): `DELETE FROM trades WHERE id=?`. -/
def delete_trade (trade_id : ℕ) (s : AppState) : AppState :=
  { s with trades := s.trades.filter (fun t => t.id != trade_id) }

/-- What the Trade Tracker save handler shows the user: the
`messagebox.showinfo("Saved", ...)` at line 109 on success (the formatted
P&L suffix is omitted here), and nothing on a `float` `ValueError` — no
`try/except` encloses lines 90–109, so the exception leaves the callback
uncaught and no messagebox is ever reached. -/
def save_trade_message (data : TradeInput) (s : AppState) : Option String :=
  match save_trade data s with
  | .ok _ => some "Trade saved."
  | .error _ => none

/-- Handler `save_settings` lifted to the program state: it mutates only the
global `settings` dict, never the `trades` table. -/
def app_save_settings (commission_entry : String) (s : AppState) :
    AppState × String :=
  let r := save_settings commission_entry s.settings
  ({ s with settings := r.1 }, r.2)

/-- Well-formed store: rowids strictly increase in insertion order.  Every
state reachable from the empty table by `save_trade` / `delete_trade`
satisfies this, since sqlite assigns each new row an id larger than all
existing ones. -/
def WF (s : AppState) : Prop :=
  s.trades.Pairwise (fun a b => a.id < b.id)

/-- A sample filled-in Trade Tracker form, used to instantiate theorems. -/
def sampleInput : TradeInput :=
  { date := "2024-01-02"
    time := "09:30"
    instrument := "ES1"
    session := "NY"
    account_size := "10000"
    setup_name := "breakout"
    entry_price := "100"
    exit_price := "110"
    stop_loss := "95"
    position_size := "10"
    direction := "Long"
    context := ""
    bias := ""
    duration := ""
    mental_state_pre := ""
    mental_state_during := ""
    execution_quality := ""
    distractions := "" }

/-- A sample filled-in Profit Calculator form. -/
def sampleCalcInput : CalcInput :=
  { currency_pair := "EURUSD"
    instrument := "ES1"
    direction := "Long"
    position_size := "10"
    trade_size_lots := "1"
    contracts := "2"
    entry_price := "4000"
    exit_price := "4010" }

/-- Startup state: default settings, empty `trades` table. -/
def state₀ : AppState :=
  { settings := settings, trades := [] }

section EvalLemmas

lemma pyFloat?_of_parseParts {s : String} {neg : Bool} {ip fp : List Char}
    (h : parseParts s = some (neg, ip, fp)) :
    pyFloat? s =
      some ((if neg then (-1 : ℚ) else 1) *
        ((natOfDigits ip : ℚ) + (natOfDigits fp : ℚ) / 10 ^ fp.length)) := by
  simp [pyFloat?, h]

lemma pyFloat?_of_parseParts_none {s : String} (h : parseParts s = none) :
    pyFloat? s = none := by
  simp [pyFloat?, h]

lemma pyFloat?_100 : pyFloat? "100" = some 100 := by
  rw [pyFloat?_of_parseParts
    (show parseParts "100" = some (false, ['1', '0', '0'], []) from by decide)]
  norm_num [show natOfDigits ['1', '0', '0'] = 100 from by decide,
    show natOfDigits ([] : List Char) = 0 from by decide]

lemma pyFloat?_110 : pyFloat? "110" = some 110 := by
  rw [pyFloat?_of_parseParts
    (show parseParts "110" = some (false, ['1', '1', '0'], []) from by decide)]
  norm_num [show natOfDigits ['1', '1', '0'] = 110 from by decide,
    show natOfDigits ([] : List Char) = 0 from by decide]

lemma pyFloat?_10 : pyFloat? "10" = some 10 := by
  rw [pyFloat?_of_parseParts
    (show parseParts "10" = some (false, ['1', '0'], []) from by decide)]
  norm_num [show natOfDigits ['1', '0'] = 10 from by decide,
    show natOfDigits ([] : List Char) = 0 from by decide]

lemma pyFloat?_2 : pyFloat? "2" = some 2 := by
  rw [pyFloat?_of_parseParts
    (show parseParts "2" = some (false, ['2'], []) from by decide)]
  norm_num [show natOfDigits ['2'] = 2 from by decide,
    show natOfDigits ([] : List Char) = 0 from by decide]

lemma pyFloat?_4000 : pyFloat? "4000" = some 4000 := by
  rw [pyFloat?_of_parseParts
    (show parseParts "4000" = some (false, ['4', '0', '0', '0'], []) from by decide)]
  norm_num [show natOfDigits ['4', '0', '0', '0'] = 4000 from by decide,
    show natOfDigits ([] : List Char) = 0 from by decide]

lemma pyFloat?_4010 : pyFloat? "4010" = some 4010 := by
  rw [pyFloat?_of_parseParts
    (show parseParts "4010" = some (false, ['4', '0', '1', '0'], []) from by decide)]
  norm_num [show natOfDigits ['4', '0', '1', '0'] = 4010 from by decide,
    show natOfDigits ([] : List Char) = 0 from by decide]

lemma pyFloat?_half : pyFloat? "0.5" = some (1 / 2) := by
  rw [pyFloat?_of_parseParts
    (show parseParts "0.5" = some (false, ['0'], ['5']) from by decide)]
  norm_num [show natOfDigits ['0'] = 0 from by decide,
    show natOfDigits ['5'] = 5 from by decide]

lemma pyFloat?_abc : pyFloat? "abc" = none :=
  pyFloat?_of_parseParts_none (by decide)

end EvalLemmas

section StoreLemmas

lemma id_le_foldr_max {t : Trade} {l : List Trade} (h : t ∈ l) :
    t.id ≤ l.foldr (fun t m => max t.id m) 0 := by
  induction l with
  | nil => cases h
  | cons x xs ih =>
      rcases List.mem_cons.mp h with rfl | hmem
      · exact le_max_left _ _
      · exact le_trans (ih hmem) (le_max_right _ _)

lemma id_lt_newId {t : Trade} {l : List Trade} (h : t ∈ l) :
    t.id < newId l :=
  Nat.lt_succ_of_le (id_le_foldr_max h)

lemma insertByIdDesc_of_lt {r : Summary} {m : List Summary}
    (h : ∀ y ∈ m, r.id < y.id) :
    insertByIdDesc r m = m ++ [r] := by
  induction m with
  | nil => rfl
  | cons y ys ih =>
      have hy : r.id < y.id := h y (List.mem_cons_self y ys)
      have : ¬ r.id ≥ y.id := by omega
      simp only [insertByIdDesc, if_neg this, List.cons_append]
      rw [ih fun z hz => h z (List.mem_cons_of_mem y hz)]

lemma sortByIdDesc_of_pairwise {l : List Summary}
    (h : l.Pairwise (fun a b => a.id < b.id)) :
    sortByIdDesc l = l.reverse := by
  induction l with
  | nil => rfl
  | cons x xs ih =>
      rcases List.pairwise_cons.mp h with ⟨hx, hxs⟩
      simp only [sortByIdDesc, ih hxs, List.reverse_cons]
      exact insertByIdDesc_of_lt fun y hy => hx y (List.mem_reverse.mp hy)

lemma map_toSummary_filter (i : ℕ) (l : List Trade) :
    (l.filter (fun t => t.id != i)).map toSummary =
      (l.map toSummary).filter (fun r => r.id != i) := by
  induction l with
  | nil => rfl
  | cons t ts ih =>
      by_cases h : t.id = i
      · simp [List.filter_cons, h, ih, toSummary]
      · simp [List.filter_cons, h, ih, toSummary]

lemma save_trade_eq (data : TradeInput) (s : AppState) {entry exit size : ℚ}
    (he : pyFloat? data.entry_price = some entry)
    (hx : pyFloat? data.exit_price = some exit)
    (hs : pyFloat? data.position_size = some size) :
    save_trade data s =
      .ok { s with trades := s.trades ++ [savedRow data s entry exit size] } := by
  simp [save_trade, he, hx, hs]

end StoreLemmas

/-- C1: for every numeric entry, exit, size, commission rate and multiplier,
`calculate_pnl` returns `(exit − entry) * size * multiplier − commission * size`
when the direction is Long and
`(entry − exit) * size * multiplier − commission * size` when it is Short
(direction compared after lowercasing, as the code does). -/
theorem calculate_pnl_formula
    (entry exit size commission multiplier : ℚ) (direction : String) :
    (pyLower direction = "long" →
      calculate_pnl entry exit size direction commission multiplier =
        (exit - entry) * size * multiplier - commission * size) ∧
    (pyLower direction = "short" →
      calculate_pnl entry exit size direction commission multiplier =
        (entry - exit) * size * multiplier - commission * size) := by
  constructor
  · intro h
    simp [calculate_pnl, h]
  · intro h
    rw [calculate_pnl]
    rw [if_neg (by rw [h]; decide)]

/-- Witness for C1 at the spec's own example inputs. -/
theorem calculate_pnl_formula_witness :
    calculate_pnl 100 110 10 "Long" (35 / 100) 1 =
      (110 - 100) * 10 * 1 - (35 / 100) * 10 ∧
    calculate_pnl 100 90 10 "Short" (35 / 100) 1 =
      (100 - 90) * 10 * 1 - (35 / 100) * 10 :=
  ⟨(calculate_pnl_formula 100 110 10 (35 / 100) 1 "Long").1 (by decide),
   (calculate_pnl_formula 100 90 10 (35 / 100) 1 "Short").2 (by decide)⟩

/-- C3: the direction comparison is case-insensitive and every direction
whose lowercasing is not `"long"` falls through to the Short branch, so
`calculate_pnl` on it agrees with `calculate_pnl` on `"Short"` at all
numeric arguments. -/
theorem direction_fallback_is_short (direction : String)
    (h : pyLower direction ≠ "long")
    (entry exit size commission multiplier : ℚ) :
    calculate_pnl entry exit size direction commission multiplier =
      calculate_pnl entry exit size "Short" commission multiplier := by
  rw [calculate_pnl, calculate_pnl, if_neg h, if_neg (by decide)]

/-- Witness for C3: the unrecognized direction `"Buy"` is priced exactly
like `"Short"`. -/
theorem direction_fallback_is_short_witness :
    calculate_pnl 100 90 10 "Buy" (35 / 100) 1 =
      calculate_pnl 100 90 10 "Short" (35 / 100) 1 :=
  direction_fallback_is_short "Buy" (by decide) 100 90 10 (35 / 100) 1

/-- C7: Long and Short are mirror images of the gross P&L only, while the
commission subtraction is direction-independent: the two net values always
sum to `-2 * commission * size`. -/
theorem long_short_mirror (entry exit size commission multiplier : ℚ) :
    calculate_pnl entry exit size "Long" commission multiplier +
      calculate_pnl entry exit size "Short" commission multiplier =
      -2 * commission * size := by
  rw [calculate_pnl, calculate_pnl, if_pos (by decide), if_neg (by decide)]
  ring

/-- C8: the spec's two worked examples, with the default multiplier `1.0`:
both the Long and the mirrored Short trade net exactly 96.5. -/
theorem pnl_worked_examples :
    calculate_pnl 100 110 10 "Long" (0.35 : ℚ) 1 = (96.5 : ℚ) ∧
    calculate_pnl 100 90 10 "Short" (0.35 : ℚ) 1 = (96.5 : ℚ) := by
  constructor
  · rw [calculate_pnl, if_pos (by decide)]
    norm_num
  · rw [calculate_pnl, if_neg (by decide)]
    norm_num

/-- C5 counterexample: at the concrete non-numeric Entry Price `"abc"`,
the save operation does fail with the `float` conversion error, but no
user-visible message is produced on this path — nothing in `save_trade`
catches the `ValueError` (the only messagebox, line 109, runs on success
only) — refuting the claim that the caller always catches the error and
surfaces it as a user-visible message. -/
theorem save_error_not_surfaced :
    save_trade { sampleInput with entry_price := "abc" } state₀ =
      .error floatError ∧
    save_trade_message { sampleInput with entry_price := "abc" } state₀ =
      none := by
  have h : save_trade { sampleInput with entry_price := "abc" } state₀ =
      .error floatError := by
    simp [save_trade, pyFloat?_abc]
  exact ⟨h, by simp [save_trade_message, h]⟩

/-- C5 (amended): a non-numeric Entry Price, Exit Price or Position Size
makes the operation fail with the `float` conversion error (an
InvalidInput raised outside `calculate_pnl` itself, which only ever sees
parsed numbers) and no row is inserted; on the Trade Tracker save path no
handler catches it, so no message is shown there, while on the Profit
Calculator path the caller catches it and surfaces it as the user-visible
error label, recoverable by re-entering the data. -/
theorem invalid_input_error_paths (data : TradeInput) (s : AppState)
    (cinp : CalcInput) (st : Settings)
    (hdata : pyFloat? data.entry_price = none ∨
      pyFloat? data.exit_price = none ∨ pyFloat? data.position_size = none)
    (hcalc : pyFloat? cinp.position_size = none ∨
      pyFloat? cinp.entry_price = none ∨ pyFloat? cinp.exit_price = none) :
    save_trade data s = .error floatError ∧
    save_trade_message data s = none ∧
    calculate_profit "Stocks" cinp st = .error floatError := by
  have h1 : save_trade data s = .error floatError := by
    rcases hdata with h | h | h
    · simp [save_trade, h]
    · cases he : pyFloat? data.entry_price <;> simp [save_trade, he, h]
    · cases he : pyFloat? data.entry_price <;>
        cases hx : pyFloat? data.exit_price <;> simp [save_trade, he, hx, h]
  refine ⟨h1, by simp [save_trade_message, h1], ?_⟩
  rcases hcalc with h | h | h
  · cases hen : pyFloat? cinp.entry_price <;>
      cases hex : pyFloat? cinp.exit_price <;>
        simp [calculate_profit, h, hen, hex]
  · cases hp : pyFloat? cinp.position_size <;>
      cases hex : pyFloat? cinp.exit_price <;>
        simp [calculate_profit, h, hp, hex]
  · cases hp : pyFloat? cinp.position_size <;>
      cases hen : pyFloat? cinp.entry_price <;>
        simp [calculate_profit, h, hp, hen]

/-- Witness for the amended C5 at the non-numeric input `"abc"` (in the
Exit Price field on the save path, in the Position Size field on the
calculator path). -/
theorem invalid_input_error_paths_witness :
    save_trade { sampleInput with exit_price := "abc" } state₀ =
      .error floatError ∧
    save_trade_message { sampleInput with exit_price := "abc" } state₀ =
      none ∧
    calculate_profit "Stocks" { sampleCalcInput with position_size := "abc" }
      settings = .error floatError :=
  invalid_input_error_paths { sampleInput with exit_price := "abc" } state₀
    { sampleCalcInput with position_size := "abc" } settings
    (Or.inr (Or.inl pyFloat?_abc)) (Or.inl pyFloat?_abc)

/-- C6: on the Futures branch the multiplier passed to `calculate_pnl` is
looked up from the uppercased instrument symbol in the table
`{NQ1:20, ES1:50, PL1:50, CL1:1000, GC1:100, PA1:100}` with default 1 for
unknown symbols, and `calculate_pnl 4000 4010 2 "Long" 1 50 = 998`. -/
theorem futures_multiplier_lookup (cinp : CalcInput) (st : Settings)
    (size entry exit : ℚ)
    (hc : pyFloat? cinp.contracts = some size)
    (he : pyFloat? cinp.entry_price = some entry)
    (hx : pyFloat? cinp.exit_price = some exit) :
    calculate_profit "Futures" cinp st =
      .netPnl
        (calculate_pnl entry exit size cinp.direction
          st.commission_per_contract
          (futuresMultiplier (pyUpper cinp.instrument)))
        st.commission_per_contract ∧
    futuresMultiplier "NQ1" = 20 ∧ futuresMultiplier "ES1" = 50 ∧
    futuresMultiplier "PL1" = 50 ∧ futuresMultiplier "CL1" = 1000 ∧
    futuresMultiplier "GC1" = 100 ∧ futuresMultiplier "PA1" = 100 ∧
    (∀ sym : String, futures_multipliers.lookup sym = none →
      futuresMultiplier sym = 1) ∧
    calculate_pnl 4000 4010 2 "Long" 1 50 = 998 := by
  refine ⟨?_, rfl, rfl, rfl, rfl, rfl, rfl, ?_, ?_⟩
  · simp [calculate_profit, hc, he, hx]
  · intro sym h
    simp [futuresMultiplier, h]
  · rw [calculate_pnl, if_pos (by decide)]
    norm_num

/-- Witness for C6 at the spec's ES1 example (2 contracts, 4000 → 4010). -/
theorem futures_multiplier_lookup_witness :
    calculate_profit "Futures" sampleCalcInput settings =
      .netPnl
        (calculate_pnl 4000 4010 2 "Long" (35 / 100)
          (futuresMultiplier (pyUpper "ES1"))) (35 / 100) :=
  (futures_multiplier_lookup sampleCalcInput settings 2 4000 4010
    pyFloat?_2 pyFloat?_4000 pyFloat?_4010).1

/-- C10: updating the commission setting is atomic with respect to
errors: an unparsable string leaves the whole settings dict unchanged and
reports an error, a parsable one stores exactly the parsed value and
touches no other field. -/
theorem save_settings_atomic (input : String) (s : Settings) :
    (pyFloat? input = none →
      save_settings input s = (s, "Invalid commission value.")) ∧
    (∀ v : ℚ, pyFloat? input = some v →
      save_settings input s =
        ({ s with commission_per_contract := v },
          "Settings updated successfully.") ∧
      (save_settings input s).1.text_size = s.text_size ∧
      (save_settings input s).1.dark_mode = s.dark_mode ∧
      (save_settings input s).1.screenshot_folder = s.screenshot_folder) := by
  constructor
  · intro h
    simp [save_settings, h]
  · intro v h
    simp [save_settings, h]

/-- Witness for C10: `"abc"` is rejected without touching the settings,
`"0.5"` is stored exactly. -/
theorem save_settings_atomic_witness :
    save_settings "abc" settings = (settings, "Invalid commission value.") ∧
    save_settings "0.5" settings =
      ({ settings with commission_per_contract := 1 / 2 },
        "Settings updated successfully.") :=
  ⟨(save_settings_atomic "abc" settings).1 pyFloat?_abc,
   ((save_settings_atomic "0.5" settings).2 (1 / 2) pyFloat?_half).1⟩

/-- C2: the record created by `save_trade` stores as its commission the
global rate at the moment of the call, and as its net P&L exactly the
calculator's output for its own entry price, exit price, position size,
direction and that snapshotted commission; a later change of the global
rate (via the settings form) leaves the stored rows untouched. -/
theorem commission_snapshot (data : TradeInput) (s : AppState)
    (entry exit size : ℚ)
    (he : pyFloat? data.entry_price = some entry)
    (hx : pyFloat? data.exit_price = some exit)
    (hs : pyFloat? data.position_size = some size) :
    ∃ r : Trade,
      save_trade data s = .ok { s with trades := s.trades ++ [r] } ∧
      r.commission = s.settings.commission_per_contract ∧
      r.pnl_net = calculate_pnl r.entry_price r.exit_price r.position_size
        r.direction r.commission 1 ∧
      r.entry_price = entry ∧ r.exit_price = exit ∧ r.position_size = size ∧
      r.direction = data.direction ∧
      ∀ newRate : String,
        (app_save_settings newRate
          { s with trades := s.trades ++ [r] }).1.trades =
          s.trades ++ [r] :=
  ⟨savedRow data s entry exit size, save_trade_eq data s he hx hs,
    rfl, rfl, rfl, rfl, rfl, rfl, fun _ => rfl⟩

/-- Witness for C2: saving the sample trade (100 → 110, 10 units) from the
startup state. -/
theorem commission_snapshot_witness :
    ∃ r : Trade,
      save_trade sampleInput state₀ =
        .ok { state₀ with trades := state₀.trades ++ [r] } ∧
      r.commission = state₀.settings.commission_per_contract ∧
      r.pnl_net = calculate_pnl r.entry_price r.exit_price r.position_size
        r.direction r.commission 1 ∧
      r.entry_price = 100 ∧ r.exit_price = 110 ∧ r.position_size = 10 ∧
      r.direction = sampleInput.direction ∧
      ∀ newRate : String,
        (app_save_settings newRate
          { state₀ with trades := state₀.trades ++ [r] }).1.trades =
          state₀.trades ++ [r] :=
  commission_snapshot sampleInput state₀ 100 110 10
    pyFloat?_100 pyFloat?_110 pyFloat?_10

/-- C9: the Trade Tracker save path always computes the stored net P&L
with the calculator's default multiplier `1.0`: the stored value is
`calculate_pnl entry exit size direction commission 1`, and changing the
instrument entered changes nothing in the row but the instrument column —
the per-instrument futures/forex multipliers live only in the
non-persisting Profit Calculator path. -/
theorem save_path_multiplier_one (data : TradeInput) (s : AppState)
    (entry exit size : ℚ)
    (he : pyFloat? data.entry_price = some entry)
    (hx : pyFloat? data.exit_price = some exit)
    (hs : pyFloat? data.position_size = some size) :
    ∃ r : Trade,
      save_trade data s = .ok { s with trades := s.trades ++ [r] } ∧
      r.pnl_net = calculate_pnl entry exit size data.direction
        s.settings.commission_per_contract 1 ∧
      ∀ instr : String,
        save_trade { data with instrument := instr } s =
          .ok { s with trades :=
            s.trades ++ [{ r with instrument := instr }] } :=
  ⟨savedRow data s entry exit size, save_trade_eq data s he hx hs, rfl,
    fun instr => save_trade_eq { data with instrument := instr } s he hx hs⟩

/-- Witness for C9 at the sample trade, whose instrument field is the
futures symbol `"ES1"`: the stored P&L still uses multiplier 1. -/
theorem save_path_multiplier_one_witness :
    ∃ r : Trade,
      save_trade sampleInput state₀ =
        .ok { state₀ with trades := state₀.trades ++ [r] } ∧
      r.pnl_net = calculate_pnl 100 110 10 sampleInput.direction
        state₀.settings.commission_per_contract 1 ∧
      ∀ instr : String,
        save_trade { sampleInput with instrument := instr } state₀ =
          .ok { state₀ with trades :=
            state₀.trades ++ [{ r with instrument := instr }] } :=
  save_path_multiplier_one sampleInput state₀ 100 110 10
    pyFloat?_100 pyFloat?_110 pyFloat?_10

/-- C4: on a well-formed store, `load_history` lists the summaries of all
stored rows newest id first; after a successful save the new row, with its
freshly assigned id, is listed first; after `delete_trade i` the listing
omits exactly the rows with id `i` and is otherwise unchanged. -/
theorem history_listing (s : AppState) (data : TradeInput)
    (entry exit size : ℚ) (hWF : WF s)
    (he : pyFloat? data.entry_price = some entry)
    (hx : pyFloat? data.exit_price = some exit)
    (hs : pyFloat? data.position_size = some size) :
    load_history s = (s.trades.map toSummary).reverse ∧
    (∃ r : Trade,
      save_trade data s = .ok { s with trades := s.trades ++ [r] } ∧
      r.id = newId s.trades ∧
      load_history { s with trades := s.trades ++ [r] } =
        toSummary r :: load_history s) ∧
    ∀ i : ℕ,
      load_history (delete_trade i s) =
        (load_history s).filter (fun r => r.id != i) := by
  have hpair : (s.trades.map toSummary).Pairwise (fun a b => a.id < b.id) :=
    List.pairwise_map.mpr hWF
  have h1 : load_history s = (s.trades.map toSummary).reverse :=
    sortByIdDesc_of_pairwise hpair
  refine ⟨h1, ⟨savedRow data s entry exit size,
    save_trade_eq data s he hx hs, rfl, ?_⟩, ?_⟩
  · have hmap : ((s.trades ++ [savedRow data s entry exit size]).map toSummary)
        = s.trades.map toSummary ++ [toSummary (savedRow data s entry exit size)] := by
      simp
    have hpair2 : ((s.trades ++ [savedRow data s entry exit size]).map
        toSummary).Pairwise (fun a b => a.id < b.id) := by
      rw [hmap]
      refine List.pairwise_append.mpr ⟨hpair, List.pairwise_singleton _ _, ?_⟩
      intro a ha b hb
      rcases List.mem_map.mp ha with ⟨t, ht, rfl⟩
      rcases List.mem_singleton.mp hb with rfl
      exact id_lt_newId ht
    show sortByIdDesc _ = _
    rw [sortByIdDesc_of_pairwise hpair2, hmap, List.reverse_append, h1]
    simp
  · intro i
    have hWF' : ((s.trades.filter (fun t => t.id != i)).map
        toSummary).Pairwise (fun a b => a.id < b.id) :=
      List.pairwise_map.mpr (hWF.sublist (List.filter_sublist _))
    show sortByIdDesc ((s.trades.filter (fun t => t.id != i)).map toSummary) = _
    rw [sortByIdDesc_of_pairwise hWF', map_toSummary_filter, h1,
      ← List.filter_reverse]

/-- Witness for C4: the startup state with the sample trade. -/
theorem history_listing_witness :
    load_history state₀ = (state₀.trades.map toSummary).reverse ∧
    (∃ r : Trade,
      save_trade sampleInput state₀ =
        .ok { state₀ with trades := state₀.trades ++ [r] } ∧
      r.id = newId state₀.trades ∧
      load_history { state₀ with trades := state₀.trades ++ [r] } =
        toSummary r :: load_history state₀) ∧
    ∀ i : ℕ,
      load_history (delete_trade i state₀) =
        (load_history state₀).filter (fun r => r.id != i) :=
  history_listing state₀ sampleInput 100 110 10 List.Pairwise.nil
    pyFloat?_100 pyFloat?_110 pyFloat?_10

end TradeLogger
